import Mathlib

/-!
Verification of the AIS-catcher core pipeline specification.

The repository sources under review ship only `src/Application/AIS-catcher.h`
(version constants).  The signal-to-message pipeline described by the
specification (Link Deframer, Frame Validator, Message Decoder, Deduplicator,
Output Distributor) is code of the repository that is not present under
`src/`, so each of those components is modelled here from the specification
text, faithful to its words, and the claims are settled against those models.
-/

namespace AISCatcher

/-! ## Version constants (from `src/Application/AIS-catcher.h`) -/

def VERSION_NUMBER : Nat := 60

def VERSION : String := "v0.60"

def COPYRIGHT : String := "jvde-github and other contributors"

def VERSION_DESCRIBE : String := "v0.17-4826-gc2b6ef9d"

def VERSION_URL_TAG : String := "v0_17_4826_gc2b6ef9d"

/-- Replace every '.' and '-' character of a string by '_', the relation the
claim states between `VERSION_DESCRIBE` and `VERSION_URL_TAG`. -/
def urlTagOf (s : String) : String :=
  String.mk (s.data.map (fun c => if c = '.' ∨ c = '-' then '_' else c))

/-! ## Frame Validator (Modelled from the spec, section 4.5)

Modelled from the spec: the Frame Validator source file is not under `src/`.
"Computes the standard CRC-16 (CCITT polynomial, as used in the AIS physical
layer) over the payload bits and compares to the trailing CRC field;
equal => ValidatedFrame, else the CandidateFrame is dropped and a rejection
counter increments." -/

/-- One bit of the CRC-16-CCITT computation (polynomial 0x1021): shift the
16-bit register left by one, feeding the input bit, and reduce by the
polynomial when the bit shifted out is set. -/
def crcStep (crc : Nat) (b : Bool) : Nat :=
  let msb : Nat := crc / 32768 % 2
  let inp : Nat := if b then 1 else 0
  let fb : Nat := (msb + inp) % 2
  let shifted : Nat := crc * 2 % 65536
  if fb = 1 then shifted ^^^ 4129 else shifted

/-- CRC-16 (CCITT polynomial) over a list of payload bits, register
initialised to 0xFFFF as in the AIS physical layer. -/
def crc16 (bits : List Bool) : Nat :=
  bits.foldl crcStep 65535

/-- A candidate frame: payload bits plus the trailing 16-bit CRC field,
channel and demodulator-variant identifiers and an arrival timestamp. -/
structure CandidateFrame where
  payload : List Bool
  crc : Nat
  channel : Nat
  variant : Nat
  arrival : Nat
deriving Repr, DecidableEq

/-- A validated frame is a candidate frame whose CRC matched. -/
structure ValidatedFrame where
  frame : CandidateFrame
deriving Repr, DecidableEq

/-- The Frame Validator: compare the computed CRC-16 of the payload with the
trailing CRC field.  Equal yields a `ValidatedFrame`; otherwise the candidate
is dropped and the rejection counter increments. -/
def validateFrame (f : CandidateFrame) (rejected : Nat) :
    Option ValidatedFrame × Nat :=
  if crc16 f.payload = f.crc then (some ⟨f⟩, rejected) else (none, rejected + 1)

/-- Flip bit `i` of the trailing CRC field of a candidate frame. -/
def corruptCrcBit (f : CandidateFrame) (i : Nat) : CandidateFrame :=
  { f with crc := f.crc ^^^ 2 ^ i }

/-! ## Link Deframer: bit-destuffing (Modelled from the spec, sections 4.4, 9)

Modelled from the spec: the Link Deframer source file is not under `src/`.
"then bit-destuffing (every run of exactly five consecutive 1s is followed by
a stuffed 0 that must be removed; a run of six or more 1s signals a frame
abort and resets frame search)", modelled as the pure transition function over
(state, input bit) the design notes call for. -/

/-- Destuffing state: the count of consecutive 1-bits seen so far and the
bits accumulated for the frame in progress. -/
structure DestuffState where
  ones : Nat
  acc : List Bool
deriving Repr, DecidableEq

/-- One destuffing step.  A sixth consecutive 1 aborts the frame and resets
the frame search; a 0 after exactly five 1s is the stuffed bit and is removed;
every other bit is appended to the frame in progress. -/
def destuffStep (s : DestuffState) (b : Bool) : DestuffState :=
  if b then
    if 5 ≤ s.ones then ⟨0, []⟩
    else ⟨s.ones + 1, s.acc ++ [true]⟩
  else
    if s.ones = 5 then ⟨0, s.acc⟩
    else ⟨0, s.acc ++ [false]⟩

/-- Run the destuffing step over a list of raw bits. -/
def destuffRun (bits : List Bool) (s : DestuffState) : DestuffState :=
  bits.foldl destuffStep s

/-! ## Link Deframer: frame emission (Modelled from the spec, sections 3, 4.4)

Modelled from the spec: "upon finding a closing delimiter, emits a
CandidateFrame consisting of all bits accumulated between delimiters (which
must decode to a ... non-empty payload plus 16 trailing CRC bits) or discards
and resets on malformed length", with the section 3 invariant "payload length
is a multiple of 6 bits after the link layer has stripped the CRC". -/

/-- Read `len` bits starting at `off` as an MSB-first natural number. -/
def getBits (bits : List Bool) (off len : Nat) : Nat :=
  ((bits.drop off).take len).foldl (fun a b => 2 * a + (if b then 1 else 0)) 0

/-- Frame emission at a closing delimiter: the accumulated bits must split
into a non-empty payload whose length is a multiple of 6 plus the 16 trailing
CRC bits; otherwise the accumulated bits are discarded. -/
def emitFrame (acc : List Bool) (channel variant arrival : Nat) :
    Option CandidateFrame :=
  if 16 < acc.length ∧ (acc.length - 16) % 6 = 0 then
    some ⟨acc.take (acc.length - 16), getBits acc (acc.length - 16) 16,
      channel, variant, arrival⟩
  else none

/-! ## Message Decoder (Modelled from the spec, section 4.6)

Modelled from the spec: the Message Decoder source file is not under `src/`.
"Maps the ValidatedFrame's payload ... into a typed AISMessage according to
the leading 6-bit message-type field (1-27 defined types; unknown types yield
a minimal unparsed variant carrying only type id, MMSI, and raw payload rather
than failing).  Field extraction for each type follows a fixed
bit-offset/bit-width table per field ...; out-of-range sentinel values ...
must be preserved as an explicit unavailable state, not coerced to zero.
Decoding errors on individual fields (insufficient remaining bits for a
fixed-length type) invalidate the whole message; it is dropped with a counter
increment, never partially emitted." -/

/-- Read `len` bits starting at `off` as a two's-complement signed value. -/
def getSigned (bits : List Bool) (off len : Nat) : Int :=
  let n := getBits bits off len
  if 2 ^ (len - 1) ≤ n then (n : Int) - 2 ^ len else (n : Int)

/-- Speed over ground: tenths of knots, or the explicit unavailable state
(raw sentinel 1023). -/
inductive SpeedOverGround where
  | unavailable : SpeedOverGround
  | value : Nat → SpeedOverGround
deriving Repr, DecidableEq

/-- Course over ground: tenths of degrees, or the explicit unavailable state
(raw sentinel 3600). -/
inductive CourseOverGround where
  | unavailable : CourseOverGround
  | value : Nat → CourseOverGround
deriving Repr, DecidableEq

/-- True heading: degrees, or the explicit unavailable state (raw sentinel
511). -/
inductive Heading where
  | unavailable : Heading
  | value : Nat → Heading
deriving Repr, DecidableEq

/-- Typed field set of a type-1 position report.  Latitude and longitude are
the raw two's-complement values in 1/10000 minute. -/
structure Type1Report where
  mmsi : Nat
  navStatus : Nat
  sog : SpeedOverGround
  lon : Int
  lat : Int
  cog : CourseOverGround
  heading : Heading
deriving Repr, DecidableEq

/-- A decoded AIS message: the fully typed position report, a generic typed
variant for the other defined types, or the minimal unparsed variant carrying
only type id, source MMSI and raw payload. -/
inductive AISMessage where
  | type1 : Type1Report → AISMessage
  | parsed : Nat → Nat → List Nat → AISMessage
  | unparsed : Nat → Nat → List Bool → AISMessage
deriving Repr, DecidableEq

/-- Fixed bit-offset/bit-width table for the fields of a type-1/2/3 position
report (type, repeat, MMSI, status, rate of turn, SOG, accuracy, lon, lat,
COG, heading, timestamp, maneuver, spare, RAIM, radio). -/
def type1Table : List (Nat × Nat) :=
  [(0, 6), (6, 2), (8, 30), (38, 4), (42, 8), (50, 10), (60, 1), (61, 28),
   (89, 27), (116, 12), (128, 9), (137, 6), (143, 2), (145, 3), (148, 1),
   (149, 19)]

/-- Modelled from the spec: the per-type field tables of the Message Decoder
are not under `src/`; the spec fixes the table for position reports (types
1-3) and states only that every defined type has such a table, so the other
defined types are given their common header fields (type, repeat, MMSI). -/
def fieldTable (t : Nat) : List (Nat × Nat) :=
  if t ≤ 3 then type1Table else [(0, 6), (6, 2), (8, 30)]

/-- Extract every field of a fixed bit-offset/bit-width table, failing (for
the whole message) when fewer bits remain than some field requires. -/
def extractAll (table : List (Nat × Nat)) (bits : List Bool) :
    Option (List Nat) :=
  match table with
  | [] => some []
  | f :: rest =>
      if f.1 + f.2 ≤ bits.length then
        (extractAll rest bits).map (fun vs => getBits bits f.1 f.2 :: vs)
      else none

/-- Decode the typed field set of a type-1 position report, preserving the
unavailable sentinels of SOG (1023), COG (3600) and heading (511) as explicit
unavailable states. -/
def decodeType1 (bits : List Bool) : Type1Report :=
  { mmsi := getBits bits 8 30
    navStatus := getBits bits 38 4
    sog := if getBits bits 50 10 = 1023 then SpeedOverGround.unavailable
           else SpeedOverGround.value (getBits bits 50 10)
    lon := getSigned bits 61 28
    lat := getSigned bits 89 27
    cog := if getBits bits 116 12 = 3600 then CourseOverGround.unavailable
           else CourseOverGround.value (getBits bits 116 12)
    heading := if getBits bits 128 9 = 511 then Heading.unavailable
               else Heading.value (getBits bits 128 9) }

/-- The Message Decoder.  An unknown leading type id yields the minimal
unparsed variant; a defined type whose field table does not fit in the
remaining bits drops the whole message and increments the decode-failure
counter; otherwise the typed message is emitted. -/
def decodeMsg (bits : List Bool) (failures : Nat) :
    Option AISMessage × Nat :=
  let t := getBits bits 0 6
  if 1 ≤ t ∧ t ≤ 27 then
    match extractAll (fieldTable t) bits with
    | none => (none, failures + 1)
    | some vs =>
        if t = 1 then (some (AISMessage.type1 (decodeType1 bits)), failures)
        else (some (AISMessage.parsed t (getBits bits 8 30) vs), failures)
  else (some (AISMessage.unparsed t (getBits bits 8 30) bits), failures)

/-- Frame Validator followed by Message Decoder: the messages that can ever
be emitted from one candidate frame.  A CRC mismatch yields no message and
increments the rejection counter. -/
def processFrame (f : CandidateFrame) (rejected failures : Nat) :
    Option AISMessage × Nat × Nat :=
  match validateFrame f rejected with
  | (none, r) => (none, r, failures)
  | (some v, r) =>
      match decodeMsg v.frame.payload failures with
      | (m, d) => (m, r, d)

/-! ## Deduplicator (Modelled from the spec, section 4.7)

Modelled from the spec: the Deduplicator source file is not under `src/`.
"Computes a fingerprint ... and checks it against a sliding time-window
store.  First arrival within the window is delivered and recorded; subsequent
arrivals with the same fingerprint inside the window are suppressed." -/

/-- The dedup store: fingerprint to last-seen timestamp, most recent entry
first. -/
def DedupStore : Type := List (Nat × Nat)

/-- Look up the last-seen timestamp recorded for a fingerprint. -/
def lookupFp (store : DedupStore) (fp : Nat) : Option Nat :=
  match store with
  | [] => none
  | e :: rest => if e.1 = fp then some e.2 else lookupFp rest fp

/-- Deduplicator check at one arrival: deliver and record when the
fingerprint is unseen or its last sighting is at least the retention window
old, suppress otherwise.  Returns the updated store and whether the message
is delivered. -/
def dedupCheck (store : DedupStore) (fp t window : Nat) :
    DedupStore × Bool :=
  match lookupFp store fp with
  | none => ((fp, t) :: store, true)
  | some t0 => if t - t0 < window then (store, false) else ((fp, t) :: store, true)

/-! ## Output Distributor (Modelled from the spec, section 4.8)

Modelled from the spec: the Output Distributor source file is not under
`src/`.  "QUEUE-AND-DROP-OLDEST (bounded queue, fixed capacity, drop oldest
item on overflow ...) or BLOCK-WITH-TIMEOUT (bounded wait, then drop the
message and increment a sink overloaded counter)". -/

/-- QUEUE-AND-DROP-OLDEST delivery: a queue already at capacity loses its
oldest item (the head) to make room for the new message. -/
def enqueueDropOldest (q : List Nat) (cap : Nat) (m : Nat) : List Nat :=
  if q.length < cap then q ++ [m] else q.drop 1 ++ [m]

/-- BLOCK-WITH-TIMEOUT delivery.  `freeDelay` is the wait the consumer needs
before a slot of the full queue frees; the delivery completes when that wait
fits inside the bounded timeout, otherwise the message is dropped and the
sink-overloaded counter increments.  Returns the queue, the counter and
whether the message is delivered. -/
def deliverBlockTimeout (q : List Nat) (cap timeout freeDelay : Nat)
    (m : Nat) (overloaded : Nat) : List Nat × Nat × Bool :=
  if q.length < cap then (q ++ [m], overloaded, true)
  else if freeDelay ≤ timeout then (q.drop 1 ++ [m], overloaded, true)
  else (q, overloaded + 1, false)

/-! ## The composed decode pipeline (Modelled from the spec, sections 2-4)

Modelled from the spec: the demodulator, bit synchronizer and link deframer
source files are not under `src/`.  The pipeline below composes a hard symbol
decision per sample, NRZI differential decoding, destuffing with HDLC-style
delimiter detection, CRC validation, message decoding and deduplication into
one pure function of the input sample blocks. -/

/-- A block of (already conditioned) samples with channel identifier,
sequence number and sample values. -/
structure SampleBlock where
  channel : Nat
  seq : Nat
  samples : List Int
deriving Repr, DecidableEq

/-- Hard symbol decision of the modelled demodulator: the sign of each
sample. -/
def demodulate (b : SampleBlock) : List Bool :=
  b.samples.map (fun s => 0 < s)

/-- Link-layer state: previous raw bit (for NRZI), run of consecutive decoded
1-bits, whether a frame is being filled, and the accumulated frame bits. -/
structure LinkState where
  last : Bool
  ones : Nat
  inFrame : Bool
  acc : List Bool
deriving Repr, DecidableEq

/-- The initial link-layer state: searching for the first delimiter. -/
def initLink : LinkState := ⟨false, 0, false, []⟩

/-- One link-layer step on a raw bit: NRZI decode (1 = no transition), then
destuffing and HDLC flag handling.  A sixth consecutive 1 trims the candidate
flag bits from the accumulator; a following 0 completes the 01111110 flag,
emitting the accumulated frame and opening the next one (delimiter reuse); a
seventh 1 aborts and resets the frame search. -/
def linkStep (s : LinkState) (raw : Bool) : LinkState × Option (List Bool) :=
  let d := raw = s.last
  if d then
    if s.ones = 5 then (⟨raw, 6, s.inFrame, s.acc.take (s.acc.length - 6)⟩, none)
    else if 6 ≤ s.ones then (⟨raw, 7, false, []⟩, none)
    else (⟨raw, s.ones + 1, s.inFrame,
      if s.inFrame then s.acc ++ [true] else []⟩, none)
  else
    if s.ones = 5 then (⟨raw, 0, s.inFrame, s.acc⟩, none)
    else if s.ones = 6 then
      (⟨raw, 0, true, []⟩, if s.inFrame then some s.acc else none)
    else (⟨raw, 0, s.inFrame,
      if s.inFrame then s.acc ++ [false] else []⟩, none)

/-- Run the link layer over a raw bit list, collecting the frame-bit
accumulations emitted at closing delimiters. -/
def linkRun (bits : List Bool) (s : LinkState) :
    LinkState × List (List Bool) :=
  bits.foldl
    (fun st b =>
      match linkStep st.1 b with
      | (s2, none) => (s2, st.2)
      | (s2, some f) => (s2, st.2 ++ [f]))
    (s, [])

/-- The content fingerprint of a candidate frame used by the Deduplicator:
message type, source MMSI and the payload bits folded into one number. -/
def fingerprintOf (payload : List Bool) : Nat :=
  getBits payload 0 6 * 2 ^ 40 + getBits payload 8 30 * 2 ^ 10 +
    getBits payload 0 (payload.length)  % 1024

/-- Pipeline state threaded through one run: dedup store and the three
observability counters (CRC rejections, decode failures, duplicates
suppressed). -/
structure PipeState where
  store : DedupStore
  rejected : Nat
  failures : Nat
  duplicates : Nat

/-- The initial pipeline state. -/
def initPipe : PipeState := ⟨[], 0, 0, 0⟩

/-- Process one emitted frame accumulation: length check, CRC validation,
decode, dedup.  Returns the updated pipeline state and the delivered message,
when any. -/
def pipeFrame (st : PipeState) (acc : List Bool) (t window : Nat) :
    PipeState × Option AISMessage :=
  match emitFrame acc 0 0 t with
  | none => (st, none)
  | some f =>
      match processFrame f st.rejected st.failures with
      | (none, r, d) => ({ st with rejected := r, failures := d }, none)
      | (some m, r, d) =>
          match dedupCheck st.store (fingerprintOf f.payload) t window with
          | (s2, true) => ({ st with store := s2, rejected := r, failures := d }, some m)
          | (s2, false) =>
              ({ st with store := s2, rejected := r, failures := d, duplicates := st.duplicates + 1 }, none)

/-- Run the decode pipeline from a given state on a sample-block sequence:
demodulate, NRZI-decode and deframe, then validate, decode and deduplicate
every frame, delivering the surviving messages in order. -/
def runPipelineFrom (window : Nat) (st : PipeState) (blocks : List SampleBlock) :
    List AISMessage :=
  let raw := (blocks.map demodulate).flatten
  let frames := (linkRun raw initLink).2
  let step := fun (p : PipeState × List AISMessage × Nat) (acc : List Bool) =>
    match pipeFrame p.1 acc p.2.2 window with
    | (st2, none) => (st2, p.2.1, p.2.2 + 1)
    | (st2, some m) => (st2, p.2.1 ++ [m], p.2.2 + 1)
  (frames.foldl step (st, [], 0)).2.1

/-- One independent pipeline run: start from the initial state. -/
def runPipeline (window : Nat) (blocks : List SampleBlock) : List AISMessage :=
  runPipelineFrom window initPipe blocks

/-- Encode a value into `len` bits, MSB first (the inverse of `getBits` for
in-range values), used to build concrete test payloads. -/
def natToBits (len n : Nat) : List Bool :=
  (List.range len).map (fun i => Nat.testBit n (len - 1 - i))

/-- The specification's concrete type-1 position report: MMSI 123456789,
latitude 37.8199 N (raw 22691940), longitude 122.4783 W (raw -73486980,
two's complement 194948476), SOG unavailable (1023), COG 90.0 degrees
(raw 900), heading unavailable (511). -/
def scenarioPayload : List Bool :=
  natToBits 6 1 ++ natToBits 2 0 ++ natToBits 30 123456789 ++
    natToBits 4 0 ++ natToBits 8 128 ++ natToBits 10 1023 ++
    natToBits 1 0 ++ natToBits 28 194948476 ++ natToBits 27 22691940 ++
    natToBits 12 900 ++ natToBits 9 511 ++ natToBits 6 60 ++
    natToBits 2 0 ++ natToBits 3 0 ++ natToBits 1 0 ++ natToBits 19 0

/-- A type-1 payload carrying the course-over-ground unavailable sentinel
(raw 3600 in the 12 bits at offset 116). -/
def cogSentinelPayload : List Bool :=
  natToBits 116 0 ++ natToBits 12 3600 ++ natToBits 40 0

/-! ## Helper lemmas -/

/-- The destuffing step keeps the run counter at five or below. -/
theorem destuffStep_ones_le (s : DestuffState) (b : Bool) :
    (destuffStep s b).ones ≤ 5 := by
  unfold destuffStep
  by_cases hb : b
  · by_cases h5 : 5 ≤ s.ones
    · simp [hb, h5]
    · simp [hb, h5]
      omega
  · by_cases h5 : s.ones = 5 <;> simp [hb, h5]

/-- The run counter stays at five or below along any destuffing run. -/
theorem destuffRun_ones_le (bits : List Bool) (s : DestuffState)
    (h : s.ones ≤ 5) : (destuffRun bits s).ones ≤ 5 := by
  induction bits generalizing s with
  | nil => exact h
  | cons b rest ih => exact ih (destuffStep s b) (destuffStep_ones_le s b)

/-- A fixed-width table with a field that does not fit in the available bits
extracts nothing. -/
theorem extractAll_eq_none (table : List (Nat × Nat)) (bits : List Bool)
    (f : Nat × Nat) (hf : f ∈ table) (hlen : bits.length < f.1 + f.2) :
    extractAll table bits = none := by
  induction table with
  | nil => cases hf
  | cons g rest ih =>
      rcases List.mem_cons.mp hf with hg | hg
      · subst hg
        unfold extractAll
        have : ¬ f.1 + f.2 ≤ bits.length := by omega
        simp [this]
      · unfold extractAll
        by_cases hfit : g.1 + g.2 ≤ bits.length
        · simp [hfit, ih hg]
        · simp [hfit]

/-- Flipping one bit of a number changes it. -/
theorem xor_pow_ne (n i : Nat) : n ^^^ 2 ^ i ≠ n := by
  intro h
  have h2 : n ^^^ (n ^^^ 2 ^ i) = n ^^^ n := by rw [h]
  rw [← Nat.xor_assoc, Nat.xor_self, Nat.zero_xor] at h2
  exact absurd h2 (Nat.two_pow_pos i).ne'

/-! ## Claim theorems -/

/-- C10: the version constants of `AIS-catcher.h` are mutually consistent:
`VERSION` is `"v0."` followed by the decimal `VERSION_NUMBER`, and
`VERSION_URL_TAG` is `VERSION_DESCRIBE` with '.' and '-' replaced by '_'. -/
theorem version_constants_consistent :
    VERSION = "v0." ++ toString VERSION_NUMBER ∧
    VERSION_URL_TAG = urlTagOf VERSION_DESCRIBE := by
  constructor <;> rfl

/-- C1: the Frame Validator produces a ValidatedFrame exactly when the
CRC-16 (CCITT polynomial) of the payload equals the trailing CRC field;
on mismatch the candidate is dropped, the rejection counter increments and
no AISMessage is emitted from the frame, and corrupting any CRC bit of a
valid frame forces that rejection. -/
theorem frameValidator_crc_gate (f : CandidateFrame) (r fl : Nat) :
    ((validateFrame f r).1.isSome ↔ crc16 f.payload = f.crc) ∧
    (crc16 f.payload ≠ f.crc → validateFrame f r = (none, r + 1) ∧
      processFrame f r fl = (none, r + 1, fl)) ∧
    (∀ i, crc16 f.payload = f.crc →
      processFrame (corruptCrcBit f i) r fl = (none, r + 1, fl)) := by
  refine ⟨?_, ?_, ?_⟩
  · by_cases h : crc16 f.payload = f.crc <;> simp [validateFrame, h]
  · intro h
    simp [validateFrame, processFrame, h]
  · intro i h
    have hne : crc16 f.payload ≠ f.crc ^^^ 2 ^ i := by
      rw [h]
      exact fun hc => xor_pow_ne f.crc i hc.symm
    simp [processFrame, validateFrame, corruptCrcBit, hne]

/-- C1 witness: a concrete valid frame passes, its CRC-corrupted version and
a frame with a wrong CRC are rejected with the counter incremented and no
message emitted. -/
theorem frameValidator_crc_gate_witness :
    (validateFrame ⟨[true], 65534, 0, 0, 0⟩ 0).1.isSome ∧
    processFrame (corruptCrcBit ⟨[true], 65534, 0, 0, 0⟩ 0) 0 0 = (none, 1, 0) ∧
    processFrame ⟨[true], 0, 0, 0, 0⟩ 0 0 = (none, 1, 0) := by
  refine ⟨?_, ?_, ?_⟩
  · exact (frameValidator_crc_gate ⟨[true], 65534, 0, 0, 0⟩ 0 0).1.mpr (by decide)
  · exact (frameValidator_crc_gate ⟨[true], 65534, 0, 0, 0⟩ 0 0).2.2 0 (by decide)
  · exact ((frameValidator_crc_gate ⟨[true], 0, 0, 0, 0⟩ 0 0).2.1 (by decide)).2

/-- C2: in the destuffing step, a run of exactly five 1-bits followed by a 0
keeps the five 1-bits and removes the stuffed 0; a sixth consecutive 1 aborts
the frame and resets the frame search; and the state machine stays in a valid
state (run counter at most five) on every input. -/
theorem destuff_rule (acc : List Bool) (s : DestuffState) (bits : List Bool) :
    destuffRun (List.replicate 5 true ++ [false]) ⟨0, acc⟩ =
      ⟨0, acc ++ List.replicate 5 true⟩ ∧
    destuffRun (List.replicate 6 true) ⟨0, acc⟩ = ⟨0, []⟩ ∧
    (s.ones ≤ 5 → (destuffRun bits s).ones ≤ 5) := by
  refine ⟨?_, ?_, destuffRun_ones_le bits s⟩
  · simp [destuffRun, destuffStep, List.replicate]
  · simp [destuffRun, destuffStep, List.replicate]

/-- C2 witness: the destuffing rules evaluated on concrete inputs. -/
theorem destuff_rule_witness :
    destuffRun (List.replicate 5 true ++ [false]) ⟨0, [false]⟩ =
      ⟨0, [false] ++ List.replicate 5 true⟩ ∧
    destuffRun (List.replicate 6 true) ⟨0, [false]⟩ = ⟨0, []⟩ ∧
    (destuffRun [true, true, true] ⟨3, [true]⟩).ones ≤ 5 := by
  have h := destuff_rule [false] ⟨3, [true]⟩ [true, true, true]
  exact ⟨h.1, h.2.1, h.2.2 (by decide)⟩

/-- C3: the Deduplicator delivers at most one message per fingerprint per
retention window: a first arrival is delivered and recorded, a second arrival
with the same fingerprint inside the window is suppressed with the store
unchanged, and an arrival after the window has expired is delivered again. -/
theorem dedup_once_per_window (store : DedupStore) (fp t0 t1 t2 window : Nat)
    (h0 : lookupFp store fp = none) (h1 : t1 - t0 < window)
    (h2 : window ≤ t2 - t0) :
    (dedupCheck store fp t0 window).2 = true ∧
    lookupFp (dedupCheck store fp t0 window).1 fp = some t0 ∧
    dedupCheck (dedupCheck store fp t0 window).1 fp t1 window =
      ((dedupCheck store fp t0 window).1, false) ∧
    (dedupCheck (dedupCheck store fp t0 window).1 fp t2 window).2 = true := by
  have hnot2 : ¬ t2 - t0 < window := by omega
  refine ⟨?_, ?_, ?_, ?_⟩ <;>
    simp [dedupCheck, h0, lookupFp, h1, hnot2]

/-- C3 witness: concrete fingerprint 7 with window 10: delivery at time 0,
suppression at time 5, delivery again at time 10. -/
theorem dedup_once_per_window_witness :
    (dedupCheck [] 7 0 10).2 = true ∧
    dedupCheck (dedupCheck [] 7 0 10).1 7 5 10 =
      ((dedupCheck [] 7 0 10).1, false) ∧
    (dedupCheck (dedupCheck [] 7 0 10).1 7 10 10).2 = true := by
  have h := dedup_once_per_window [] 7 0 5 10 10 (by decide) (by decide)
    (by decide)
  exact ⟨h.1, h.2.2.1, h.2.2.2⟩

/-- C4: a type-1 payload carrying the unavailable sentinel for speed over
ground (raw 1023), course over ground (raw 3600) or heading (raw 511)
decodes that field to an explicit unavailable state, never to any numeric
value, in particular never to zero. -/
theorem decoder_sentinel_fields (bits : List Bool) :
    (getBits bits 50 10 = 1023 →
      (decodeType1 bits).sog = SpeedOverGround.unavailable ∧
      ∀ n, (decodeType1 bits).sog ≠ SpeedOverGround.value n) ∧
    (getBits bits 116 12 = 3600 →
      (decodeType1 bits).cog = CourseOverGround.unavailable ∧
      ∀ n, (decodeType1 bits).cog ≠ CourseOverGround.value n) ∧
    (getBits bits 128 9 = 511 →
      (decodeType1 bits).heading = Heading.unavailable ∧
      ∀ n, (decodeType1 bits).heading ≠ Heading.value n) := by
  refine ⟨?_, ?_, ?_⟩ <;> intro h
  · constructor
    · simp [decodeType1, h]
    · intro n
      simp [decodeType1, h]
  · constructor
    · simp [decodeType1, h]
    · intro n
      simp [decodeType1, h]
  · constructor
    · simp [decodeType1, h]
    · intro n
      simp [decodeType1, h]

/-- C4 witness: the specification's concrete type-1 report round-trips with
sog and heading unavailable, mmsi 123456789, cog 90.0 degrees and lat/lon
exact at the encoded raw values, whose scaled values match the source
coordinates; a second payload carrying the cog sentinel decodes cog to the
explicit unavailable state. -/
theorem decoder_sentinel_fields_witness :
    getBits scenarioPayload 50 10 = 1023 ∧
    (decodeType1 scenarioPayload).sog = SpeedOverGround.unavailable ∧
    getBits scenarioPayload 128 9 = 511 ∧
    (decodeType1 scenarioPayload).heading = Heading.unavailable ∧
    getBits cogSentinelPayload 116 12 = 3600 ∧
    (decodeType1 cogSentinelPayload).cog = CourseOverGround.unavailable ∧
    getBits scenarioPayload 0 6 = 1 ∧
    (decodeType1 scenarioPayload).mmsi = 123456789 ∧
    (decodeType1 scenarioPayload).cog = CourseOverGround.value 900 ∧
    (decodeType1 scenarioPayload).lat = 22691940 ∧
    (decodeType1 scenarioPayload).lon = -73486980 ∧
    (22691940 : ℚ) / 600000 = 378199 / 10000 ∧
    (-73486980 : ℚ) / 600000 = -1224783 / 10000 := by
  have h1 := decoder_sentinel_fields scenarioPayload
  have h2 := decoder_sentinel_fields cogSentinelPayload
  exact ⟨by decide, (h1.1 (by decide)).1, by decide, (h1.2.2 (by decide)).1,
    by decide, (h2.2.1 (by decide)).1, by decide, by decide, by decide,
    by decide, by decide, by norm_num, by norm_num⟩

/-- C5: a payload whose leading 6-bit type field is not one of the 27 defined
types decodes to the minimal unparsed variant carrying the type id, the
source MMSI and the raw payload, with no failure and no drop. -/
theorem decoder_unknown_type (bits : List Bool) (fl : Nat)
    (h : getBits bits 0 6 = 0 ∨ 27 < getBits bits 0 6) :
    decodeMsg bits fl =
      (some (AISMessage.unparsed (getBits bits 0 6) (getBits bits 8 30) bits),
        fl) := by
  have hk : ¬ (1 ≤ getBits bits 0 6 ∧ getBits bits 0 6 ≤ 27) := by omega
  simp [decodeMsg, hk]

/-- C5 witness: a 6-bit payload with type id 28 decodes to the unparsed
variant. -/
theorem decoder_unknown_type_witness :
    decodeMsg (natToBits 6 28) 0 =
      (some (AISMessage.unparsed 28 0 (natToBits 6 28)), 0) := by
  have h := decoder_unknown_type (natToBits 6 28) 0 (Or.inr (by decide))
  have h28 : getBits (natToBits 6 28) 0 6 = 28 := by decide
  have h0 : getBits (natToBits 6 28) 8 30 = 0 := by decide
  rw [h28, h0] at h
  exact h

/-- C6: for a defined message type, when some field of the fixed
bit-offset/bit-width table does not fit in the remaining payload bits, the
whole message extracts to nothing and the decoder drops it with a
decode-failure counter increment; no message is emitted. -/
theorem decoder_drops_short (bits : List Bool) (fl : Nat) (f : Nat × Nat)
    (ht1 : 1 ≤ getBits bits 0 6) (ht2 : getBits bits 0 6 ≤ 27)
    (hf : f ∈ fieldTable (getBits bits 0 6))
    (hlen : bits.length < f.1 + f.2) :
    extractAll (fieldTable (getBits bits 0 6)) bits = none ∧
    decodeMsg bits fl = (none, fl + 1) := by
  have hnone := extractAll_eq_none _ bits f hf hlen
  refine ⟨hnone, ?_⟩
  simp [decodeMsg, ht1, ht2, hnone]

/-- C6 witness: a 6-bit type-1 payload is too short for the MMSI field
(offset 8, width 30) and is dropped with the counter incremented. -/
theorem decoder_drops_short_witness :
    (natToBits 6 1).length < 8 + 30 ∧
    decodeMsg (natToBits 6 1) 0 = (none, 1) := by
  refine ⟨by decide, ?_⟩
  exact (decoder_drops_short (natToBits 6 1) 0 (8, 30) (by decide) (by decide)
    (by decide) (by decide)).2

/-- C7: every candidate frame the link layer emits has a non-empty payload
whose length is a multiple of 6 bits after the 16 trailing CRC bits are
stripped, and an accumulation violating that bound is discarded (nothing is
emitted). -/
theorem emitFrame_invariant (acc : List Bool) (ch v t : Nat) :
    (∀ f, emitFrame acc ch v t = some f →
      f.payload.length % 6 = 0 ∧ f.payload ≠ [] ∧
      f.payload.length = acc.length - 16) ∧
    (¬ (16 < acc.length ∧ (acc.length - 16) % 6 = 0) →
      emitFrame acc ch v t = none) := by
  constructor
  · intro f hf
    unfold emitFrame at hf
    by_cases hc : 16 < acc.length ∧ (acc.length - 16) % 6 = 0
    · simp [hc] at hf
      have hlen : f.payload.length = acc.length - 16 := by
        rw [← hf]
        simp [Nat.min_eq_left (Nat.sub_le acc.length 16)]
      refine ⟨by rw [hlen]; exact hc.2, ?_, hlen⟩
      have hpos : 0 < f.payload.length := by omega
      exact List.ne_nil_of_length_pos hpos
    · simp [hc] at hf
  · intro hc
    unfold emitFrame
    simp [hc]

/-- C7 witness: a 22-bit accumulation yields a 6-bit non-empty payload
satisfying the invariant, while a 20-bit accumulation is discarded. -/
theorem emitFrame_invariant_witness :
    emitFrame (List.replicate 22 false) 0 0 0 =
      some ⟨List.replicate 6 false, 0, 0, 0, 0⟩ ∧
    (List.replicate 6 false).length % 6 = 0 ∧
    (List.replicate 6 false : List Bool) ≠ [] ∧
    emitFrame (List.replicate 20 false) 0 0 0 = none := by
  refine ⟨by decide, ?_, ?_,
    (emitFrame_invariant (List.replicate 20 false) 0 0 0).2 (by decide)⟩
  · exact ((emitFrame_invariant (List.replicate 22 false) 0 0 0).1
      ⟨List.replicate 6 false, 0, 0, 0, 0⟩ (by decide)).1
  · exact ((emitFrame_invariant (List.replicate 22 false) 0 0 0).1
      ⟨List.replicate 6 false, 0, 0, 0, 0⟩ (by decide)).2.1

/-- C8: a QUEUE-AND-DROP-OLDEST sink never exceeds its capacity and, at
capacity, replaces the oldest queued item by the new message; a
BLOCK-WITH-TIMEOUT sink whose bounded wait cannot complete the delivery of a
message to a full queue drops the message and increments the sink-overloaded
counter, leaving the queue unchanged. -/
theorem distributor_policies (q1 q2 : List Nat)
    (cap timeout freeDelay m c : Nat) :
    (q1.length ≤ cap → 0 < cap →
      (enqueueDropOldest q1 cap m).length ≤ cap) ∧
    (cap ≤ q1.length → enqueueDropOldest q1 cap m = q1.drop 1 ++ [m]) ∧
    (cap ≤ q2.length → timeout < freeDelay →
      deliverBlockTimeout q2 cap timeout freeDelay m c = (q2, c + 1, false)) := by
  refine ⟨?_, ?_, ?_⟩
  · intro hle hpos
    unfold enqueueDropOldest
    by_cases hlt : q1.length < cap
    · simp [hlt]
      omega
    · simp [hlt]
      omega
  · intro hge
    have hlt : ¬ q1.length < cap := by omega
    simp [enqueueDropOldest, hlt]
  · intro hge hto
    have h1 : ¬ q2.length < cap := by omega
    have h2 : ¬ freeDelay ≤ timeout := by omega
    simp [deliverBlockTimeout, h1, h2]

/-- C8 witness: with capacity 2, a full drop-oldest queue [1, 2] accepts 9 as
[2, 9] within capacity, while a block-with-timeout sink with 0-length timeout
and the full queue [1, 2] drops the message and counts it. -/
theorem distributor_policies_witness :
    (enqueueDropOldest [1, 2] 2 9).length ≤ 2 ∧
    enqueueDropOldest [1, 2] 2 9 = [2, 9] ∧
    deliverBlockTimeout [1, 2] 2 0 1 9 0 = ([1, 2], 1, false) := by
  have h := distributor_policies [1, 2] [1, 2] 2 0 1 9 0
  refine ⟨h.1 (by decide) (by decide), ?_, h.2.2 (by decide) (by decide)⟩
  have h2 := h.2.1 (by decide)
  simpa using h2

/-- C9: the decode pipeline is deterministic: two independent runs from the
initial pipeline state on byte-identical sample-block sequences deliver
identical message lists. -/
theorem pipeline_deterministic (window : Nat)
    (blocks1 blocks2 : List SampleBlock) (h : blocks1 = blocks2) :
    runPipeline window blocks1 = runPipeline window blocks2 ∧
    runPipelineFrom window initPipe blocks1 =
      runPipelineFrom window initPipe blocks2 := by
  rw [h]
  exact ⟨rfl, rfl⟩

/-- C9 witness: two runs on the same concrete one-block input agree. -/
theorem pipeline_deterministic_witness :
    runPipeline 10 [⟨0, 0, [1, -1, 1]⟩] = runPipeline 10 [⟨0, 0, [1, -1, 1]⟩] :=
  (pipeline_deterministic 10 [⟨0, 0, [1, -1, 1]⟩] [⟨0, 0, [1, -1, 1]⟩] rfl).1

end AISCatcher
